import Mathlib

/-!
Shallow embedding of the generic table-access layer of `server.js`
(an Express + sqlite3 REST API): the `DatabaseManager` connection/query
logic, the `errorHandler` middleware, the `checkDatabaseConnection`
middleware and the seven data-API route handlers, together with a small
model of the external sqlite3 driver used to evaluate concrete runs.
-/

/-- A SQL parameter / column value as passed through from JSON bodies and URL
parameters. `vNan` models the JavaScript number NaN (produced by parseInt on
non-numeric text), which the driver binds in place of a number. -/
inductive Value where
  | vStr : String → Value
  | vInt : Int → Value
  | vNan : Value
  | vNull : Value
deriving Repr, DecidableEq

/-- A result row as delivered by the driver: column name to value, in column
order. -/
abbrev Row := List (String × Value)

/-- JSON values, for response bodies (what res.json serializes). -/
inductive Json where
  | null : Json
  | str : String → Json
  | int : Int → Json
  | arr : List Json → Json
  | obj : List (String × Json) → Json

/-- JSON.stringify of a single value; NaN serializes as null. -/
def valueToJson : Value → Json
  | .vStr s => .str s
  | .vInt n => .int n
  | .vNan => .null
  | .vNull => .null

/-- A row as res.json renders it: a JSON object. -/
def rowToJson (r : Row) : Json := .obj (r.map (fun kv => (kv.1, valueToJson kv.2)))

/-- A row list as res.json renders it: a JSON array of objects. -/
def rowsToJson (rs : List Row) : Json := .arr (rs.map rowToJson)

/-- Whether a JSON value is an object. -/
def Json.isObj : Json → Bool
  | .obj _ => true
  | _ => false

/-- Whether a JSON object carries a key (false for non-objects). -/
def Json.hasKey : Json → String → Bool
  | .obj fs, k => fs.any (fun f => f.1 == k)
  | _, _ => false

/-- An HTTP response: status code and JSON body. -/
structure HttpResponse where
  status : Nat
  body : Json

/-- Does the pattern occur contiguously in the character list? -/
def chContains (s pat : List Char) : Bool :=
  match s with
  | [] => pat.isEmpty
  | _ :: tl => pat.isPrefixOf s || chContains tl pat

/-- Replace the first occurrence of the pattern (JavaScript
String.prototype.replace with a string pattern replaces only the first). -/
def chReplaceFirst (s pat rep : List Char) : List Char :=
  match s with
  | [] => []
  | c :: tl => if pat.isPrefixOf s then rep ++ s.drop pat.length else c :: chReplaceFirst tl pat rep

/-- JavaScript String.prototype.includes. -/
def jsIncludes (s pat : String) : Bool := chContains s.data pat.data

/-- JavaScript String.prototype.replace with a string pattern: first
occurrence only. -/
def jsReplaceFirst (s pat rep : String) : String :=
  String.mk (chReplaceFirst s.data pat.data rep.data)

/-- Numeric value of a run of decimal digit characters. -/
def digitsVal (ds : List Char) : Nat :=
  ds.foldl (fun a c => a * 10 + (c.toNat - 48)) 0

/-- JavaScript parseInt(s, 10): skip leading whitespace, read an optional sign
and the longest run of decimal digits; `none` models NaN (no digits found). -/
def jsParseInt (s : String) : Option Int :=
  let cs := s.data.dropWhile (fun c => c == ' ' || c == '\t' || c == '\n' || c == '\r')
  match cs with
  | '-' :: rest =>
    let ds := rest.takeWhile (fun c => c.isDigit)
    if ds.isEmpty then none else some (-(digitsVal ds : Int))
  | '+' :: rest =>
    let ds := rest.takeWhile (fun c => c.isDigit)
    if ds.isEmpty then none else some ((digitsVal ds : Int))
  | _ =>
    let ds := cs.takeWhile (fun c => c.isDigit)
    if ds.isEmpty then none else some ((digitsVal ds : Int))

/-- A JavaScript number that may be NaN. -/
abbrev JsNum := Option Int

/-- JavaScript subtraction: NaN propagates. -/
def jsSub (a b : JsNum) : JsNum :=
  match a, b with
  | some x, some y => some (x - y)
  | _, _ => none

/-- JavaScript multiplication: NaN propagates. -/
def jsMul (a b : JsNum) : JsNum :=
  match a, b with
  | some x, some y => some (x * y)
  | _, _ => none

/-- A JavaScript number as a bound statement parameter. -/
def numParam : JsNum → Value
  | some n => .vInt n
  | none => .vNan

/-- JavaScript falsiness of an optional query-string / body field: absent or
the empty string. -/
def jsFalsyParam : Option String → Bool
  | none => true
  | some s => s == ""

/-- Outcome of one driver callback (db.all): either the selected rows or an
error with the driver's message. -/
inductive BackendResult where
  | ok : List Row → BackendResult
  | fail : String → BackendResult
deriving Repr, DecidableEq

/-- The database driver as DatabaseManager.query sees it, over backend state
`σ`: `exec` is the effect and result of `db.all(sql, params, cb)`, and `time`
is how many milliseconds pass before the driver invokes the callback. -/
structure Backend (σ : Type) where
  exec : σ → String → List Value → BackendResult × σ
  time : σ → String → List Value → Nat

/-- config.timeout default: 3 * 60 * 1000 milliseconds. -/
def configTimeoutDefault : Nat := 3 * 60 * 1000

/-- DatabaseManager.query: a setTimeout of `tmo` milliseconds races the driver
callback. If the callback takes at least `tmo` milliseconds the promise
rejects with DATABASE_TIMEOUT (the execution is abandoned, not cancelled, so
the backend state still advances); otherwise clearTimeout cancels the clock
and the callback decides the outcome. -/
def dmQuery {σ : Type} (b : Backend σ) (tmo : Nat) (s : σ) (sql : String)
    (ps : List Value) : Except String (List Row) × σ :=
  let r := b.exec s sql ps
  if tmo ≤ b.time s sql ps then (Except.error "DATABASE_TIMEOUT", r.2)
  else
    match r.1 with
    | .ok rows => (Except.ok rows, r.2)
    | .fail m => (Except.error m, r.2)

/-- What a route handler does with the response: answer directly
(res.status(..).json(..)) or forward an Error to the error-handling
middleware (next(new Error(msg))). -/
inductive HandlerOut where
  | resp : HttpResponse → HandlerOut
  | nextErr : String → HandlerOut

/-- A record of one dbManager.query call: statement text and bound parameters. -/
abbrev Stmt := String × List Value

/-- A handler run: the backend state afterwards, the statements sent to the
driver in order, and the response action. -/
structure HandlerResult (σ : Type) where
  state : σ
  executed : List Stmt
  out : HandlerOut

/-- The error-handling middleware, on an Error with message `msg` and stack
`stack` under config.nodeEnv `env`: DATABASE_TIMEOUT answers 408 with a fixed
message; every other error answers 500, with detail and stack attached only
in development mode. -/
def errorHandler (env msg stack : String) : HttpResponse :=
  if msg = "DATABASE_TIMEOUT" then
    ⟨408, Json.obj [("status", Json.str "error"),
      ("message", Json.str "A consulta excedeu o tempo limite de 3 minutos")]⟩
  else
    ⟨500, Json.obj ([("status", Json.str "error"),
      ("message", Json.str "Erro interno do servidor")] ++
      (if env = "development" then [("detail", Json.str msg), ("stack", Json.str stack)]
       else []))⟩

/-- The response the client finally receives from a handler action: a direct
answer, or the forwarded error rendered by errorHandler (a fresh Error's
stack is irrelevant here and modelled empty). -/
def finalResponse (env : String) (o : HandlerOut) : HttpResponse :=
  match o with
  | .resp r => r
  | .nextErr m => errorHandler env m ""

/-- The fallback route for unmatched endpoints. -/
def notFoundRoute : HttpResponse :=
  ⟨404, Json.obj [("status", Json.str "error"), ("message", Json.str "Endpoint não encontrado")]⟩

/-- The catch-block rewrite shared by most handlers: a message containing
"no such table" has its first "no such table:" replaced by the localized
text; any other message passes unchanged. -/
def localizeNoSuchTable (m : String) : String :=
  if jsIncludes m "no such table" then jsReplaceFirst m "no such table:" "Não existe a tabela:"
  else m

/-- Statement text of the List operation. -/
def readTableSql (table : String) : String := "SELECT * FROM " ++ table ++ " LIMIT 10"

/-- Statement text of the Get-by-id operation and of Delete's existence check. -/
def selectByIdSql (table : String) : String := "SELECT * FROM " ++ table ++ " WHERE id = ?"

/-- Statement text of the Paginate operation. -/
def paginationSql (table : String) : String := "SELECT * FROM " ++ table ++ " LIMIT ? OFFSET ?"

/-- Statement text of the Update-row operation, from the body's keys
(Array.prototype.join with the default "," separator). -/
def updateSql (table : String) (body : List (String × Value)) : String :=
  "UPDATE " ++ table ++ " SET " ++ String.intercalate "," (body.map (fun kv => kv.1 ++ " = ?"))
    ++ " WHERE id = ?"

/-- Statement text of the Create-row operation, from the body's keys. -/
def insertSql (table : String) (body : List (String × Value)) : String :=
  "INSERT INTO " ++ table ++ " (" ++ String.intercalate "," (body.map (fun kv => kv.1))
    ++ ") VALUES (" ++ String.intercalate "," (body.map (fun _ => "?")) ++ ")"

/-- Statement text of the Delete-row operation. -/
def deleteByIdSql (table : String) : String := "DELETE FROM " ++ table ++ " WHERE id = ?"

/-- Statement text of the Add-column operation. -/
def addColumnSql (table columnName columnType : String) : String :=
  "ALTER TABLE " ++ table ++ " ADD COLUMN " ++ columnName ++ " " ++ columnType ++ ";"

/-- GET /api/read/:table. -/
def readTableHandler {σ : Type} (b : Backend σ) (tmo : Nat) (s : σ) (table : String) :
    HandlerResult σ :=
  let sql := readTableSql table
  match dmQuery b tmo s sql [] with
  | (Except.ok rows, s1) =>
    ⟨s1, [(sql, [])],
      .resp ⟨200, Json.obj [("status", Json.str "success"), ("data", rowsToJson rows)]⟩⟩
  | (Except.error m, s1) => ⟨s1, [(sql, [])], .nextErr (localizeNoSuchTable m)⟩

/-- GET /api/read/:table/:id. -/
def readByIdHandler {σ : Type} (b : Backend σ) (tmo : Nat) (s : σ) (table id : String) :
    HandlerResult σ :=
  if table = "" ∧ id = "" then
    ⟨s, [], .resp ⟨400, Json.obj [("message", Json.str "Bad request. Missing ID parameter")]⟩⟩
  else
    let sql := selectByIdSql table
    let ps := [Value.vStr id]
    match dmQuery b tmo s sql ps with
    | (Except.ok [], s1) =>
      ⟨s1, [(sql, ps)], .resp ⟨404, Json.obj [("message", Json.str "User not found")]⟩⟩
    | (Except.ok (r :: _), s1) => ⟨s1, [(sql, ps)], .resp ⟨200, rowToJson r⟩⟩
    | (Except.error m, s1) => ⟨s1, [(sql, ps)], .nextErr (localizeNoSuchTable m)⟩

/-- GET /api/pagination/:table, with the page and limit query parameters as
Express delivers them (absent or a string). -/
def paginationHandler {σ : Type} (b : Backend σ) (tmo : Nat) (s : σ) (table : String)
    (page limit : Option String) : HandlerResult σ :=
  if jsFalsyParam page || jsFalsyParam limit then
    ⟨s, [], .resp ⟨400, Json.obj [("message", Json.str "Bad request. Missing page or limit parameter")]⟩⟩
  else
    let pageNumber := jsParseInt (page.getD "")
    let limitNumber := jsParseInt (limit.getD "")
    let offset := jsMul (jsSub pageNumber (some 1)) limitNumber
    let sql := paginationSql table
    let ps := [numParam limitNumber, numParam offset]
    match dmQuery b tmo s sql ps with
    | (Except.ok rows, s1) =>
      if rows.length > 0 then ⟨s1, [(sql, ps)], .resp ⟨200, rowsToJson rows⟩⟩
      else
        ⟨s1, [(sql, ps)],
          .resp ⟨200, Json.obj [("message", Json.str ("A tabela '" ++ table ++ "' está vazia."))]⟩⟩
    | (Except.error m, s1) => ⟨s1, [(sql, ps)], .nextErr (localizeNoSuchTable m)⟩

/-- PATCH /api/update/:table/:id, with the JSON body's entries in order. The
success body carries no "changes" value: the source writes
`changes: this.changes` where `this` is the CommonJS module context, so the
value is undefined and JSON serialization drops the key. -/
def updateHandler {σ : Type} (b : Backend σ) (tmo : Nat) (s : σ) (table id : String)
    (body : List (String × Value)) : HandlerResult σ :=
  let sql := updateSql table body
  let ps := body.map (fun kv => kv.2) ++ [Value.vStr id]
  match dmQuery b tmo s sql ps with
  | (Except.ok _, s1) =>
    ⟨s1, [(sql, ps)], .resp ⟨200, Json.obj [("message", Json.str "Cadastro atualizado com sucesso!")]⟩⟩
  | (Except.error m, s1) => ⟨s1, [(sql, ps)], .nextErr (localizeNoSuchTable m)⟩

/-- POST /api/create/:table, with the JSON body's entries in order. The
success body carries no "id" value: the source writes `id: this.lastID` where
`this` is the CommonJS module context, so the value is undefined and JSON
serialization drops the key. The catch rewrites only unique-constraint
violations; every other message is forwarded raw. -/
def createHandler {σ : Type} (b : Backend σ) (tmo : Nat) (s : σ) (table : String)
    (body : List (String × Value)) : HandlerResult σ :=
  let sql := insertSql table body
  let values := body.map (fun kv => kv.2)
  match dmQuery b tmo s sql values with
  | (Except.ok _, s1) =>
    ⟨s1, [(sql, values)], .resp ⟨200, Json.obj [("message", Json.str "Cadastro criado com sucesso!")]⟩⟩
  | (Except.error m, s1) =>
    ⟨s1, [(sql, values)],
      .nextErr (if jsIncludes m "UNIQUE constraint failed" then "O email já existe" else m)⟩

/-- DELETE /api/delete/:table/:id: the existence check runs first; only when
it returns rows is the DELETE statement sent. -/
def deleteHandler {σ : Type} (b : Backend σ) (tmo : Nat) (s : σ) (table id : String) :
    HandlerResult σ :=
  let checkSql := selectByIdSql table
  let deleteSql := deleteByIdSql table
  let checkParams := [Value.vStr id]
  match dmQuery b tmo s checkSql checkParams with
  | (Except.ok result, s1) =>
    if result.length = 0 then
      ⟨s1, [(checkSql, checkParams)],
        .resp ⟨404, Json.obj [("message",
          Json.str ("O id '" ++ id ++ "' não encontrado na tabela '" ++ table ++ "'."))]⟩⟩
    else
      match dmQuery b tmo s1 deleteSql checkParams with
      | (Except.ok _, s2) =>
        ⟨s2, [(checkSql, checkParams), (deleteSql, checkParams)],
          .resp ⟨200, Json.obj [("message", Json.str ("ID '" ++ id ++ "' excluído com sucesso!"))]⟩⟩
      | (Except.error m, s2) =>
        ⟨s2, [(checkSql, checkParams), (deleteSql, checkParams)], .nextErr (localizeNoSuchTable m)⟩
  | (Except.error m, s1) => ⟨s1, [(checkSql, checkParams)], .nextErr (localizeNoSuchTable m)⟩

/-- POST /api/add-column/:table, with columnName and columnType from the body. -/
def addColumnHandler {σ : Type} (b : Backend σ) (tmo : Nat) (s : σ) (table : String)
    (columnName columnType : String) : HandlerResult σ :=
  let sql := addColumnSql table columnName columnType
  match dmQuery b tmo s sql [] with
  | (Except.ok _, s1) =>
    ⟨s1, [(sql, [])],
      .resp ⟨200, Json.obj [("message", Json.str ("Coluna '" ++ columnName ++ "' criada com sucesso!"))]⟩⟩
  | (Except.error m, s1) => ⟨s1, [(sql, [])], .nextErr (localizeNoSuchTable m)⟩

/-- Statement text of the Create-table operation. -/
def createTableSql (tableName columns : String) : String :=
  "CREATE TABLE IF NOT EXISTS " ++ tableName ++ " (" ++ columns ++ ");"

/-- POST /api/add-table, with tableName and columns from the body. Missing or
empty fields are rejected with 400; the catch prefixes every error message
with "Erro ao criar a tabela: " — timeouts included — so a forwarded timeout
no longer equals DATABASE_TIMEOUT when the error middleware checks it. -/
def addTableHandler {σ : Type} (b : Backend σ) (tmo : Nat) (s : σ)
    (tableName columns : Option String) : HandlerResult σ :=
  if jsFalsyParam tableName || jsFalsyParam columns then
    ⟨s, [], .resp ⟨400, Json.obj [("error",
      Json.str "Nome da tabela e colunas são obrigatórios.")]⟩⟩
  else
    let sql := createTableSql (tableName.getD "") (columns.getD "")
    match dmQuery b tmo s sql [] with
    | (Except.ok _, s1) =>
      ⟨s1, [(sql, [])], .resp ⟨200, Json.obj [("message",
        Json.str ("Tabela '" ++ tableName.getD "" ++ "' criada com sucesso!"))]⟩⟩
    | (Except.error m, s1) => ⟨s1, [(sql, [])], .nextErr ("Erro ao criar a tabela: " ++ m)⟩

/-- A modelled database: tables by name, each an ordered list of rows
(sequence order = storage order). -/
abbrev Db := List (String × List Row)

/-- The rows of a named table, when the table exists. -/
def findTable (db : Db) (t : String) : Option (List Row) :=
  (db.find? (fun tb => tb.1 == t)).map (fun tb => tb.2)

/-- Drop a concrete prefix from a character list; none when it is not a prefix. -/
def dropPref : List Char → List Char → Option (List Char)
  | [], s => some s
  | _ :: _, [] => none
  | p :: ps, c :: cs => if c = p then dropPref ps cs else none

/-- The characters strictly between a given prefix and suffix; none when the
text does not carry both. -/
def betweenCh (pre post s : List Char) : Option (List Char) :=
  match dropPref pre s with
  | none => none
  | some r =>
    match dropPref post.reverse r.reverse with
    | none => none
    | some mid => some mid.reverse

/-- The characters before the first occurrence of a separator (the whole text
when the separator does not occur). -/
def beforeFirst (sep : List Char) : List Char → List Char
  | [] => []
  | c :: tl => if List.isPrefixOf sep (c :: tl) then [] else c :: beforeFirst sep tl

/-- The statement shapes this server emits, with the table name each one
targets. -/
inductive SqlShape where
  | selectAll10 : String → SqlShape
  | selectPage : String → SqlShape
  | selectById : String → SqlShape
  | deleteById : String → SqlShape
  | updateRow : String → SqlShape
  | insertRow : String → SqlShape
  | alterAdd : String → SqlShape
  | unknown : SqlShape

/-- Recognize which of the server's statement shapes a sql text is, and the
table it names (a model of the external SQL parser, for the statement texts
this server builds). -/
def parseSql (sql : String) : SqlShape :=
  let cs := sql.data
  if let some t := betweenCh "SELECT * FROM ".data " LIMIT 10".data cs then
    .selectAll10 (String.mk t)
  else if let some t := betweenCh "SELECT * FROM ".data " LIMIT ? OFFSET ?".data cs then
    .selectPage (String.mk t)
  else if let some t := betweenCh "SELECT * FROM ".data " WHERE id = ?".data cs then
    .selectById (String.mk t)
  else if let some t := betweenCh "DELETE FROM ".data " WHERE id = ?".data cs then
    .deleteById (String.mk t)
  else if let some r := dropPref "UPDATE ".data cs then
    .updateRow (String.mk (beforeFirst " SET ".data r))
  else if let some r := dropPref "INSERT INTO ".data cs then
    .insertRow (String.mk (beforeFirst " (".data r))
  else if let some r := dropPref "ALTER TABLE ".data cs then
    .alterAdd (String.mk (beforeFirst " ADD COLUMN ".data r))
  else .unknown

/-- Error message the sqlite3 driver reports for a statement naming an absent
table. -/
def noSuchTableMsg (t : String) : String := "SQLITE_ERROR: no such table: " ++ t

/-- Integer value of text that is exactly an optionally signed digit run. -/
def strAsInt : List Char → Option Int
  | [] => none
  | '-' :: ds => if ds ≠ [] ∧ ds.all Char.isDigit then some (-(digitsVal ds : Int)) else none
  | ds => if ds.all Char.isDigit then some ((digitsVal ds : Int)) else none

/-- SQLite's comparison of an id column with a bound parameter, with the
integer affinity conversion of numeric-looking text. -/
def sqlCoerce : Value → Value
  | .vStr s => match strAsInt s.data with
    | some n => .vInt n
    | none => .vStr s
  | v => v

/-- Whether a row's id column matches a bound parameter under affinity. -/
def rowIdMatches (p : Value) (r : Row) : Bool :=
  match r.find? (fun f => f.1 == "id") with
  | some f => sqlCoerce f.2 == sqlCoerce p
  | none => false

/-- Failure or trivial success of a statement against a possibly absent table. -/
def tableCheck (db : Db) (t : String) : BackendResult × Db :=
  match findTable db t with
  | none => (.fail (noSuchTableMsg t), db)
  | some _ => (.ok [], db)

/-- Modelled from the sqlite3 driver and SQLite semantics (external to this
repository): execution of the statement shapes the server emits against a
list of named tables. A statement naming an absent table fails with the
driver's no-such-table message; db.all yields [] for statements returning no
rows. Row mutation by UPDATE/INSERT is not exercised by the claims and is not
tracked here. -/
def sqliteExec (db : Db) (sql : String) (ps : List Value) : BackendResult × Db :=
  match parseSql sql with
  | .selectAll10 t =>
    match findTable db t with
    | none => (.fail (noSuchTableMsg t), db)
    | some rows => (.ok (rows.take 10), db)
  | .selectPage t =>
    match findTable db t with
    | none => (.fail (noSuchTableMsg t), db)
    | some rows =>
      match ps with
      | [Value.vInt l, Value.vInt o] =>
        if l < 0 then (.ok (rows.drop o.toNat), db)
        else (.ok ((rows.drop o.toNat).take l.toNat), db)
      | _ => (.fail "SQLITE_MISUSE", db)
  | .selectById t =>
    match findTable db t with
    | none => (.fail (noSuchTableMsg t), db)
    | some rows =>
      match ps with
      | [v] => (.ok (rows.filter (fun r => rowIdMatches v r)), db)
      | _ => (.fail "SQLITE_MISUSE", db)
  | .deleteById t =>
    match findTable db t with
    | none => (.fail (noSuchTableMsg t), db)
    | some _ =>
      match ps with
      | [v] =>
        (.ok [], db.map (fun tb =>
          if tb.1 = t then (tb.1, tb.2.filter (fun r => !(rowIdMatches v r))) else tb))
      | _ => (.fail "SQLITE_MISUSE", db)
  | .updateRow t => tableCheck db t
  | .insertRow t => tableCheck db t
  | .alterAdd t => tableCheck db t
  | .unknown => (.fail "SQLITE_ERROR: unrecognized statement", db)

/-- The modelled driver over a database, answering instantly. -/
def sqliteBackend : Backend Db := ⟨sqliteExec, fun _ _ _ => 0⟩

/-- A driver stub whose callback returns immediately with no rows (as db.all
does for INSERT, UPDATE and DELETE statements). -/
def okBackend : Backend Unit := ⟨fun s _ _ => (.ok [], s), fun _ _ _ => 0⟩

/-- A driver stub that takes `t` milliseconds for every statement. -/
def slowBackend (t : Nat) : Backend Unit := ⟨fun s _ _ => (.ok [], s), fun _ _ _ => t⟩

/-- A driver stub whose callback always returns the same two rows. -/
def twoRowBackend : Backend Unit :=
  ⟨fun s _ _ => (.ok [[("id", Value.vInt 1), ("first", Value.vStr "A")],
    [("id", Value.vInt 1), ("first", Value.vStr "B")]], s), fun _ _ _ => 0⟩

/-- Sample rows 1..n, in storage order. -/
def sampleRows (n : Nat) : List Row :=
  (List.range n).map (fun k => [("id", Value.vInt (k + 1))])

/-- The sqlite3 Database handle as DatabaseManager.connect assigns it:
`opened` records whether the open callback reported success. The source
assigns `this.db` synchronously, before the open callback runs, so the field
is set even when the open fails. -/
structure DbHandle where
  opened : Bool
deriving Repr, DecidableEq

/-- DatabaseManager's connection state, plus a count of open attempts. -/
structure MgrState where
  db : Option DbHandle
  connects : Nat
deriving Repr, DecidableEq

/-- The manager at process start: no handle, no open attempt yet. -/
def MgrState.init : MgrState := ⟨none, 0⟩

/-- DatabaseManager.connect: performs one open attempt with outcome `res`,
assigns this.db to the new handle regardless, and resolves iff the open
succeeded. -/
def mgrConnect (res : Bool) (s : MgrState) : MgrState × Bool :=
  (⟨some ⟨res⟩, s.connects + 1⟩, res)

/-- What the connection middleware does with the request. -/
inductive MwOut where
  | proceed : MwOut
  | failNext : MwOut
deriving Repr, DecidableEq

/-- checkDatabaseConnection: connect only when dbManager.db is unset; on a
rejected connect, forward a connection error instead of running the handler. -/
def checkDatabaseConnection (res : Bool) (s : MgrState) : MgrState × MwOut :=
  match s.db with
  | none =>
    let c := mgrConnect res s
    if c.2 then (c.1, .proceed) else (c.1, .failNext)
  | some _ => (s, .proceed)

/-- Whether a successfully opened connection is in place. -/
def establishedOf (s : MgrState) : Bool :=
  match s.db with
  | some h => h.opened
  | none => false

/-- One request through the connection middleware: the new manager state,
whether the route handler ran (and with it its queries), and whether an
established connection was in place when it did. -/
def runRequest (res : Bool) (s : MgrState) : MgrState × Bool × Bool :=
  let m := checkDatabaseConnection res s
  match m.2 with
  | .proceed => (m.1, true, establishedOf m.1)
  | .failNext => (m.1, false, false)

/-- A request sequence: for each arriving request, the outcome an open attempt
would have. Returns the final manager state and, per request, whether the
handler ran and whether the connection was established when it did. -/
def runRequests : List Bool → MgrState → MgrState × List (Bool × Bool)
  | [], s => (s, [])
  | r :: rs, s =>
    let one := runRequest r s
    let rest := runRequests rs one.1
    (rest.1, one.2 :: rest.2)

theorem dmQuery_timeout {σ : Type} (b : Backend σ) (tmo : Nat) (s : σ) (sql : String)
    (ps : List Value) (h : tmo ≤ b.time s sql ps) :
    dmQuery b tmo s sql ps = (Except.error "DATABASE_TIMEOUT", (b.exec s sql ps).2) := by
  simp [dmQuery, h]

theorem dmQuery_ok {σ : Type} {b : Backend σ} {tmo : Nat} {s s1 : σ} {sql : String}
    {ps : List Value} {rows : List Row} (ht : b.time s sql ps < tmo)
    (he : b.exec s sql ps = (.ok rows, s1)) :
    dmQuery b tmo s sql ps = (Except.ok rows, s1) := by
  simp [dmQuery, he, Nat.not_le.mpr ht]

theorem dmQuery_fail {σ : Type} {b : Backend σ} {tmo : Nat} {s s1 : σ} {sql : String}
    {ps : List Value} {m : String} (ht : b.time s sql ps < tmo)
    (he : b.exec s sql ps = (.fail m, s1)) :
    dmQuery b tmo s sql ps = (Except.error m, s1) := by
  simp [dmQuery, he, Nat.not_le.mpr ht]

theorem jsParseInt_empty : jsParseInt "" = none := rfl

/-- C10: a Get-by-id request on an existing table whose SELECT returns more
than one row answers HTTP 200 with exactly the first row of the result
sequence; the remaining rows are silently discarded. -/
theorem c10_read_by_id_returns_first_row {σ : Type} (b : Backend σ) (tmo : Nat)
    (s s1 : σ) (table id : String) (r1 r2 : Row) (rest : List Row)
    (hguard : ¬(table = "" ∧ id = ""))
    (ht : b.time s (selectByIdSql table) [Value.vStr id] < tmo)
    (he : b.exec s (selectByIdSql table) [Value.vStr id] = (.ok (r1 :: r2 :: rest), s1)) :
    (readByIdHandler b tmo s table id).out = .resp ⟨200, rowToJson r1⟩ := by
  unfold readByIdHandler
  rw [if_neg hguard]
  simp only [dmQuery_ok ht he]

/-- Witness for C10 at a driver returning two rows for id 1. -/
theorem c10_read_by_id_returns_first_row_witness :
    (readByIdHandler twoRowBackend configTimeoutDefault () "users" "1").out
      = .resp ⟨200, rowToJson [("id", Value.vInt 1), ("first", Value.vStr "A")]⟩ :=
  c10_read_by_id_returns_first_row twoRowBackend configTimeoutDefault () () "users" "1"
    [("id", Value.vInt 1), ("first", Value.vStr "A")]
    [("id", Value.vInt 1), ("first", Value.vStr "B")] []
    (by simp) (by norm_num [twoRowBackend, configTimeoutDefault]) rfl

/-- C3 (code bug evaluated): an Update request with an empty body is not
rejected with BadRequest: the malformed statement
"UPDATE users SET  WHERE id = ?" is built and sent to the backend, and the
handler answers 200. -/
theorem c3_empty_update_executes_malformed :
    (updateHandler okBackend configTimeoutDefault () "users" "1" []).executed
        = [("UPDATE users SET  WHERE id = ?", [Value.vStr "1"])]
      ∧ (updateHandler okBackend configTimeoutDefault () "users" "1" []).out
        = .resp ⟨200, Json.obj [("message", Json.str "Cadastro atualizado com sucesso!")]⟩ :=
  ⟨rfl, rfl⟩

/-- C4 (code bug evaluated): a successful Create answers 200 with a
message-only body; no "id" key is present, because `this.lastID` is undefined
in the handler (module-scope `this`), and JSON drops undefined values. -/
theorem c4_create_ack_lacks_generated_id :
    (createHandler okBackend configTimeoutDefault () "users"
        [("first", Value.vStr "Amilton"), ("last", Value.vStr "Santos Gomes"),
         ("dept", Value.vInt 1)]).out
      = .resp ⟨200, Json.obj [("message", Json.str "Cadastro criado com sucesso!")]⟩
    ∧ Json.hasKey (Json.obj [("message", Json.str "Cadastro criado com sucesso!")]) "id" = false :=
  ⟨rfl, rfl⟩

/-- C5 (amended): a Paginate request whose page or limit parameter is missing
or empty is answered 400 with the bad-request message, the backend state is
untouched and no statement is executed. -/
theorem c5_pagination_missing_param_rejected {σ : Type} (b : Backend σ) (tmo : Nat)
    (s : σ) (table : String) (page limit : Option String)
    (h : (jsFalsyParam page || jsFalsyParam limit) = true) :
    paginationHandler b tmo s table page limit
      = ⟨s, [], .resp ⟨400, Json.obj [("message",
          Json.str "Bad request. Missing page or limit parameter")]⟩⟩ := by
  unfold paginationHandler
  rw [if_pos h]

/-- Witness for C5's amended statement: a request with no page parameter. -/
theorem c5_pagination_missing_param_rejected_witness :
    paginationHandler okBackend configTimeoutDefault () "users" none (some "10")
      = ⟨(), [], .resp ⟨400, Json.obj [("message",
          Json.str "Bad request. Missing page or limit parameter")]⟩⟩ :=
  c5_pagination_missing_param_rejected okBackend configTimeoutDefault () "users"
    none (some "10") rfl

/-- C5 counterexample: a present but non-numeric page parameter is not
rejected: parseInt yields NaN, the statement is executed with NaN-derived
parameters, and the response is 200, not 400. -/
theorem c5_nonnumeric_page_not_rejected :
    (paginationHandler okBackend configTimeoutDefault () "users" (some "abc") (some "10")).executed
        = [("SELECT * FROM users LIMIT ? OFFSET ?", [Value.vInt 10, Value.vNan])]
      ∧ (paginationHandler okBackend configTimeoutDefault () "users" (some "abc") (some "10")).out
        = .resp ⟨200, Json.obj [("message", Json.str "A tabela 'users' está vazia.")]⟩ :=
  ⟨rfl, rfl⟩

/-- C7: on a Delete request, the existence-check SELECT runs first; when it
returns zero rows the handler answers NotFound, the DELETE statement is never
sent to the driver, and the backend state — touched only by the read — is
unchanged. -/
theorem c7_delete_missing_id_not_found {σ : Type} (b : Backend σ) (tmo : Nat)
    (s : σ) (table id : String)
    (ht : b.time s (selectByIdSql table) [Value.vStr id] < tmo)
    (he : b.exec s (selectByIdSql table) [Value.vStr id] = (.ok [], s)) :
    deleteHandler b tmo s table id
      = ⟨s, [(selectByIdSql table, [Value.vStr id])],
          .resp ⟨404, Json.obj [("message",
            Json.str ("O id '" ++ id ++ "' não encontrado na tabela '" ++ table ++ "'."))]⟩⟩ := by
  unfold deleteHandler
  simp only [dmQuery_ok ht he, List.length_nil, if_true]

/-- Witness for C7: deleting id 3 from a two-row users table answers 404,
sends only the existence check, and leaves the database as it was. -/
theorem c7_delete_missing_id_not_found_witness :
    deleteHandler sqliteBackend configTimeoutDefault
        [("users", [[("id", Value.vInt 1)], [("id", Value.vInt 2)]])] "users" "3"
      = ⟨[("users", [[("id", Value.vInt 1)], [("id", Value.vInt 2)]])],
          [("SELECT * FROM users WHERE id = ?", [Value.vStr "3"])],
          .resp ⟨404, Json.obj [("message",
            Json.str "O id '3' não encontrado na tabela 'users'.")]⟩⟩ :=
  c7_delete_missing_id_not_found sqliteBackend configTimeoutDefault
    [("users", [[("id", Value.vInt 1)], [("id", Value.vInt 2)]])] "users" "3"
    (by decide) (by decide)

/-- C6: a Paginate request with numeric page and limit executes exactly
'SELECT * FROM <table> LIMIT ? OFFSET ?' with parameters limit and
offset = (page-1)*limit; on a 25-row table, page 1 with limit 10 answers rows
1-10 and page 3 with limit 10 answers rows 21-25, in storage order. -/
theorem c6_pagination_limit_offset {σ : Type} (b : Backend σ) (tmo : Nat)
    (s : σ) (table : String) (page limit : String) (p l : Int)
    (hp : jsParseInt page = some p) (hl : jsParseInt limit = some l)
    (hp1 : 1 ≤ p) (hl1 : 1 ≤ l) :
    (paginationHandler b tmo s table (some page) (some limit)).executed
        = [(paginationSql table, [Value.vInt l, Value.vInt ((p - 1) * l)])]
      ∧ paginationHandler sqliteBackend configTimeoutDefault [("users", sampleRows 25)]
            "users" (some "1") (some "10")
          = ⟨[("users", sampleRows 25)],
             [("SELECT * FROM users LIMIT ? OFFSET ?", [Value.vInt 10, Value.vInt 0])],
             .resp ⟨200, rowsToJson ((sampleRows 25).take 10)⟩⟩
      ∧ paginationHandler sqliteBackend configTimeoutDefault [("users", sampleRows 25)]
            "users" (some "3") (some "10")
          = ⟨[("users", sampleRows 25)],
             [("SELECT * FROM users LIMIT ? OFFSET ?", [Value.vInt 10, Value.vInt 20])],
             .resp ⟨200, rowsToJson ((sampleRows 25).drop 20)⟩⟩ := by
  refine ⟨?_, rfl, rfl⟩
  have hpe : page ≠ "" := by
    intro h; rw [h, jsParseInt_empty] at hp; cases hp
  have hle : limit ≠ "" := by
    intro h; rw [h, jsParseInt_empty] at hl; cases hl
  have hguard : (jsFalsyParam (some page) || jsFalsyParam (some limit)) = false := by
    simp [jsFalsyParam, hpe, hle]
  unfold paginationHandler
  simp only [hguard, Bool.false_eq_true, if_false, Option.getD_some, hp, hl, jsSub, jsMul,
    numParam]
  cases hq : dmQuery b tmo s (paginationSql table) [Value.vInt l, Value.vInt ((p - 1) * l)] with
  | mk r s1 =>
    cases r with
    | ok rows =>
      by_cases hlen : rows.length > 0 <;> simp [hlen]
    | error m => simp

/-- Witness for C6's quantified part: page 2 with limit 7 executes the
LIMIT/OFFSET statement with offset 7. -/
theorem c6_pagination_limit_offset_witness :
    (paginationHandler okBackend configTimeoutDefault () "customers"
        (some "2") (some "7")).executed
      = [("SELECT * FROM customers LIMIT ? OFFSET ?", [Value.vInt 7, Value.vInt 7])] :=
  (c6_pagination_limit_offset okBackend configTimeoutDefault () "customers" "2" "7" 2 7
    rfl rfl (by norm_num) (by norm_num)).1

/-- C1 (amended): when the backend fails each operation's statement with a
no-such-table message `m`, the List, Get-by-id, Paginate, Update-row,
Delete-row and Add-column handlers all surface the localized error (first
"no such table:" rewritten to the Portuguese text) — but the Create-row
handler surfaces the raw backend message unchanged, since its catch rewrites
only unique-constraint violations. -/
theorem c1_no_such_table_localized {σ : Type} (b : Backend σ) (tmo : Nat) (s : σ)
    (s1 s2 s3 s4 s5 s6 : σ) (table id page limit cn ct m : String) (p l : Int)
    (hguard : ¬(table = "" ∧ id = ""))
    (hp : jsParseInt page = some p) (hl : jsParseInt limit = some l)
    (hmsg : jsIncludes m "no such table" = true)
    (hnotu : jsIncludes m "UNIQUE constraint failed" = false)
    (ht : ∀ q ps, b.time s q ps < tmo)
    (he1 : b.exec s (readTableSql table) [] = (.fail m, s1))
    (he2 : b.exec s (selectByIdSql table) [Value.vStr id] = (.fail m, s2))
    (he3 : b.exec s (paginationSql table) [Value.vInt l, Value.vInt ((p - 1) * l)]
      = (.fail m, s3))
    (he4 : b.exec s (updateSql table [("first", Value.vStr "Ana")])
      ([("first", Value.vStr "Ana")].map (fun kv => kv.2) ++ [Value.vStr id]) = (.fail m, s4))
    (he5 : b.exec s (insertSql table [("first", Value.vStr "Ana")])
      ([("first", Value.vStr "Ana")].map (fun kv => kv.2)) = (.fail m, s5))
    (he6 : b.exec s (addColumnSql table cn ct) [] = (.fail m, s6)) :
    (readTableHandler b tmo s table).out
        = .nextErr (jsReplaceFirst m "no such table:" "Não existe a tabela:")
      ∧ (readByIdHandler b tmo s table id).out
          = .nextErr (jsReplaceFirst m "no such table:" "Não existe a tabela:")
      ∧ (paginationHandler b tmo s table (some page) (some limit)).out
          = .nextErr (jsReplaceFirst m "no such table:" "Não existe a tabela:")
      ∧ (updateHandler b tmo s table id [("first", Value.vStr "Ana")]).out
          = .nextErr (jsReplaceFirst m "no such table:" "Não existe a tabela:")
      ∧ (deleteHandler b tmo s table id).out
          = .nextErr (jsReplaceFirst m "no such table:" "Não existe a tabela:")
      ∧ (addColumnHandler b tmo s table cn ct).out
          = .nextErr (jsReplaceFirst m "no such table:" "Não existe a tabela:")
      ∧ (createHandler b tmo s table [("first", Value.vStr "Ana")]).out = .nextErr m := by
  have hloc : localizeNoSuchTable m = jsReplaceFirst m "no such table:" "Não existe a tabela:" := by
    unfold localizeNoSuchTable
    rw [hmsg]
    simp
  have hpe : page ≠ "" := by
    intro h; rw [h, jsParseInt_empty] at hp; cases hp
  have hle : limit ≠ "" := by
    intro h; rw [h, jsParseInt_empty] at hl; cases hl
  have hfals : (jsFalsyParam (some page) || jsFalsyParam (some limit)) = false := by
    simp [jsFalsyParam, hpe, hle]
  refine ⟨?_, ?_, ?_, ?_, ?_, ?_, ?_⟩
  · unfold readTableHandler
    simp only [dmQuery_fail (ht _ _) he1, hloc]
  · unfold readByIdHandler
    rw [if_neg hguard]
    simp only [dmQuery_fail (ht _ _) he2, hloc]
  · unfold paginationHandler
    simp only [hfals, Bool.false_eq_true, if_false, Option.getD_some, hp, hl, jsSub, jsMul,
      numParam]
    simp only [dmQuery_fail (ht _ _) he3, hloc]
  · unfold updateHandler
    simp only [dmQuery_fail (ht _ _) he4, hloc]
  · unfold deleteHandler
    simp only [dmQuery_fail (ht _ _) he2, hloc]
  · unfold addColumnHandler
    simp only [dmQuery_fail (ht _ _) he6, hloc]
  · unfold createHandler
    simp only [dmQuery_fail (ht _ _) he5, hnotu, Bool.false_eq_true, if_false]

/-- Witness for C1's amended statement: List on the absent table "users"
over the modelled driver surfaces the localized error. -/
theorem c1_no_such_table_localized_witness :
    (readTableHandler sqliteBackend configTimeoutDefault [] "users").out
      = .nextErr "SQLITE_ERROR: Não existe a tabela: users" :=
  (c1_no_such_table_localized sqliteBackend configTimeoutDefault [] [] [] [] [] [] []
    "users" "7" "1" "10" "age" "INTEGER" "SQLITE_ERROR: no such table: users" 1 10
    (by simp) rfl rfl (by decide) (by decide)
    (fun _ _ => by norm_num [sqliteBackend, configTimeoutDefault])
    (by decide) (by decide) (by decide) (by decide) (by decide) (by decide)).1

/-- C1 counterexample: Create on the absent table "users" surfaces the raw
backend error, which differs from the localized message every other
operation surfaces. -/
theorem c1_create_surfaces_raw_backend_error :
    (createHandler sqliteBackend configTimeoutDefault [] "users"
        [("first", Value.vStr "Ana")]).out
        = .nextErr "SQLITE_ERROR: no such table: users"
      ∧ localizeNoSuchTable "SQLITE_ERROR: no such table: users"
          = "SQLITE_ERROR: Não existe a tabela: users"
      ∧ "SQLITE_ERROR: no such table: users" ≠ "SQLITE_ERROR: Não existe a tabela: users" :=
  ⟨rfl, rfl, by decide⟩

/-- C2 (amended): under the configured timeout (default 180 seconds =
180000 ms), a statement whose driver callback takes at least the timeout
makes every operation except Create table answer HTTP 408 with the timeout
message; the Create-table handler prefixes the forwarded message with
"Erro ao criar a tabela: ", so the error middleware's strict
DATABASE_TIMEOUT check fails and a timed-out Create table answers 500. A
callback arriving before the timeout has the clock cancelled and the rows
delivered (shown at the query layer and on the List operation). -/
theorem c2_query_timeout {σ : Type} (b : Backend σ) (tmo : Nat) (s : σ)
    (env table id cn ct : String) (page limit tname cols : Option String)
    (body : List (String × Value))
    (hguard : ¬(table = "" ∧ id = ""))
    (hfp : jsFalsyParam page = false) (hfl : jsFalsyParam limit = false)
    (hft : jsFalsyParam tname = false) (hfc : jsFalsyParam cols = false)
    (ht : ∀ q ps, tmo ≤ b.time s q ps) :
    configTimeoutDefault = 180 * 1000
      ∧ (∀ q ps, (dmQuery b tmo s q ps).1 = Except.error "DATABASE_TIMEOUT")
      ∧ finalResponse env (.nextErr "DATABASE_TIMEOUT")
          = ⟨408, Json.obj [("status", Json.str "error"),
              ("message", Json.str "A consulta excedeu o tempo limite de 3 minutos")]⟩
      ∧ finalResponse env (readTableHandler b tmo s table).out
          = ⟨408, Json.obj [("status", Json.str "error"),
              ("message", Json.str "A consulta excedeu o tempo limite de 3 minutos")]⟩
      ∧ finalResponse env (readByIdHandler b tmo s table id).out
          = ⟨408, Json.obj [("status", Json.str "error"),
              ("message", Json.str "A consulta excedeu o tempo limite de 3 minutos")]⟩
      ∧ finalResponse env (paginationHandler b tmo s table page limit).out
          = ⟨408, Json.obj [("status", Json.str "error"),
              ("message", Json.str "A consulta excedeu o tempo limite de 3 minutos")]⟩
      ∧ finalResponse env (updateHandler b tmo s table id body).out
          = ⟨408, Json.obj [("status", Json.str "error"),
              ("message", Json.str "A consulta excedeu o tempo limite de 3 minutos")]⟩
      ∧ finalResponse env (createHandler b tmo s table body).out
          = ⟨408, Json.obj [("status", Json.str "error"),
              ("message", Json.str "A consulta excedeu o tempo limite de 3 minutos")]⟩
      ∧ finalResponse env (deleteHandler b tmo s table id).out
          = ⟨408, Json.obj [("status", Json.str "error"),
              ("message", Json.str "A consulta excedeu o tempo limite de 3 minutos")]⟩
      ∧ finalResponse env (addColumnHandler b tmo s table cn ct).out
          = ⟨408, Json.obj [("status", Json.str "error"),
              ("message", Json.str "A consulta excedeu o tempo limite de 3 minutos")]⟩
      ∧ (∀ (b2 : Backend σ) (s2 s3 : σ) (q : String) (ps : List Value) (rows : List Row),
          b2.time s2 q ps < tmo → b2.exec s2 q ps = (.ok rows, s3) →
            dmQuery b2 tmo s2 q ps = (Except.ok rows, s3))
      ∧ (∀ (b2 : Backend σ) (s2 s3 : σ) (rows : List Row),
          b2.time s2 (readTableSql table) [] < tmo →
          b2.exec s2 (readTableSql table) [] = (.ok rows, s3) →
            (readTableHandler b2 tmo s2 table).out
              = .resp ⟨200, Json.obj [("status", Json.str "success"),
                  ("data", rowsToJson rows)]⟩)
      ∧ finalResponse env (addTableHandler b tmo s tname cols).out
          = ⟨500, Json.obj ([("status", Json.str "error"),
              ("message", Json.str "Erro interno do servidor")] ++
              (if env = "development"
               then [("detail", Json.str ("Erro ao criar a tabela: " ++ "DATABASE_TIMEOUT")),
                 ("stack", Json.str "")]
               else []))⟩ := by
  have hfals : (jsFalsyParam page || jsFalsyParam limit) = false := by
    rw [hfp, hfl]; rfl
  have hfalsTC : (jsFalsyParam tname || jsFalsyParam cols) = false := by
    rw [hft, hfc]; rfl
  have hto : finalResponse env (.nextErr "DATABASE_TIMEOUT")
      = ⟨408, Json.obj [("status", Json.str "error"),
          ("message", Json.str "A consulta excedeu o tempo limite de 3 minutos")]⟩ := rfl
  have hlocTO : localizeNoSuchTable "DATABASE_TIMEOUT" = "DATABASE_TIMEOUT" := rfl
  have h500 : finalResponse env (.nextErr ("Erro ao criar a tabela: " ++ "DATABASE_TIMEOUT"))
      = ⟨500, Json.obj ([("status", Json.str "error"),
          ("message", Json.str "Erro interno do servidor")] ++
          (if env = "development"
           then [("detail", Json.str ("Erro ao criar a tabela: " ++ "DATABASE_TIMEOUT")),
             ("stack", Json.str "")]
           else []))⟩ := by
    unfold finalResponse errorHandler
    dsimp only
    rw [if_neg (by decide : ¬(("Erro ao criar a tabela: " ++ "DATABASE_TIMEOUT")
      = "DATABASE_TIMEOUT"))]
  refine ⟨rfl, ?_, hto, ?_, ?_, ?_, ?_, ?_, ?_, ?_, ?_, ?_, ?_⟩
  · intro q ps
    rw [dmQuery_timeout b tmo s q ps (ht q ps)]
  · unfold readTableHandler
    simp only [dmQuery_timeout b tmo s _ _ (ht _ _), hlocTO, hto]
  · unfold readByIdHandler
    rw [if_neg hguard]
    simp only [dmQuery_timeout b tmo s _ _ (ht _ _), hlocTO, hto]
  · unfold paginationHandler
    simp only [hfals, Bool.false_eq_true, if_false]
    simp only [dmQuery_timeout b tmo s _ _ (ht _ _), hlocTO, hto]
  · unfold updateHandler
    simp only [dmQuery_timeout b tmo s _ _ (ht _ _), hlocTO, hto]
  · unfold createHandler
    simp only [dmQuery_timeout b tmo s _ _ (ht _ _),
      show jsIncludes "DATABASE_TIMEOUT" "UNIQUE constraint failed" = false from rfl,
      Bool.false_eq_true, if_false, hto]
  · unfold deleteHandler
    simp only [dmQuery_timeout b tmo s _ _ (ht _ _), hlocTO, hto]
  · unfold addColumnHandler
    simp only [dmQuery_timeout b tmo s _ _ (ht _ _), hlocTO, hto]
  · intro b2 s2 s3 q ps rows h1 h2
    exact dmQuery_ok h1 h2
  · intro b2 s2 s3 rows h1 h2
    unfold readTableHandler
    simp only [dmQuery_ok h1 h2]
  · unfold addTableHandler
    simp only [hfalsTC, Bool.false_eq_true, if_false]
    simp only [dmQuery_timeout b tmo s _ _ (ht _ _), h500]

/-- Witness for C2's amended statement: a driver taking exactly the default
180 s makes the List operation answer 408 with the timeout message. -/
theorem c2_query_timeout_witness :
    finalResponse "production"
        (readTableHandler (slowBackend configTimeoutDefault) configTimeoutDefault () "users").out
      = ⟨408, Json.obj [("status", Json.str "error"),
          ("message", Json.str "A consulta excedeu o tempo limite de 3 minutos")]⟩ :=
  (c2_query_timeout (slowBackend configTimeoutDefault) configTimeoutDefault ()
    "production" "users" "7" "age" "INTEGER" (some "1") (some "10")
    (some "pedidos") (some "id INTEGER PRIMARY KEY")
    [("first", Value.vStr "Ana")]
    (by simp) rfl rfl rfl rfl (fun _ _ => Nat.le_refl _)).2.2.2.1

/-- C2 counterexample: a timed-out Create table does not answer 408 — its
catch forwards "Erro ao criar a tabela: DATABASE_TIMEOUT", the error
middleware's strict check fails, and the caller receives 500. -/
theorem c2_add_table_timeout_answers_500 :
    finalResponse "production"
        (addTableHandler (slowBackend configTimeoutDefault) configTimeoutDefault ()
          (some "pedidos") (some "id INTEGER PRIMARY KEY")).out
        = ⟨500, Json.obj [("status", Json.str "error"),
            ("message", Json.str "Erro interno do servidor")]⟩
      ∧ (finalResponse "production"
          (addTableHandler (slowBackend configTimeoutDefault) configTimeoutDefault ()
            (some "pedidos") (some "id INTEGER PRIMARY KEY")).out).status ≠ 408 :=
  ⟨rfl, by decide⟩

/-- The connection middleware is a no-op when the handle field is already
set: no new connect is attempted. -/
theorem checkDatabaseConnection_connected (res : Bool) (st : MgrState) (h : DbHandle)
    (hdb : st.db = some h) : checkDatabaseConnection res st = (st, .proceed) := by
  unfold checkDatabaseConnection
  rw [hdb]

/-- Once the handle field is set, a request sequence leaves the manager state
untouched (no further connect, successful or not). -/
theorem runRequests_connected (rs : List Bool) :
    ∀ (st : MgrState) (h : DbHandle), st.db = some h → (runRequests rs st).1 = st := by
  induction rs with
  | nil => intro st h hdb; rfl
  | cons r tl ih =>
    intro st h hdb
    unfold runRequests runRequest
    rw [checkDatabaseConnection_connected r st h hdb]
    exact ih st h hdb

/-- With a successfully opened handle in place, every request runs its
handler with an established connection. -/
theorem runRequests_all_established (rs : List Bool) :
    ∀ (st : MgrState), st.db = some ⟨true⟩ →
      ∀ pr ∈ (runRequests rs st).2, pr.1 = true ∧ pr.2 = true := by
  induction rs with
  | nil => intro st hdb pr hpr; cases hpr
  | cons r tl ih =>
    intro st hdb pr hpr
    unfold runRequests runRequest at hpr
    rw [checkDatabaseConnection_connected r st ⟨true⟩ hdb] at hpr
    simp only [List.mem_cons] at hpr
    rcases hpr with hpr | hpr
    · subst hpr
      refine ⟨rfl, ?_⟩
      unfold establishedOf
      rw [hdb]
    · exact ih st hdb pr hpr

/-- C8 (amended): the connection-ensuring middleware when the handle field is
already set performs no new connect; over any request sequence from process
start at most one open is attempted; and provided every open attempt
succeeds, every handler runs with an established connection. -/
theorem c8_single_connect (rs : List Bool) :
    (∀ (res : Bool) (st : MgrState) (h : DbHandle), st.db = some h →
        checkDatabaseConnection res st = (st, MwOut.proceed))
      ∧ ((runRequests rs MgrState.init).1).connects ≤ 1
      ∧ ((∀ r ∈ rs, r = true) →
          ∀ pr ∈ (runRequests rs MgrState.init).2, pr.1 = true ∧ pr.2 = true) := by
  refine ⟨checkDatabaseConnection_connected, ?_, ?_⟩
  · cases rs with
    | nil => decide
    | cons r tl =>
      have h1 : (runRequest r MgrState.init).1 = ⟨some ⟨r⟩, 1⟩ := by
        cases r <;> rfl
      unfold runRequests
      dsimp only
      rw [h1, runRequests_connected tl ⟨some ⟨r⟩, 1⟩ ⟨r⟩ rfl]
  · intro hall pr hpr
    cases rs with
    | nil => cases hpr
    | cons r tl =>
      have hr : r = true := hall r (List.mem_cons_self r tl)
      subst hr
      unfold runRequests at hpr
      dsimp only at hpr
      have h1 : runRequest true MgrState.init = (⟨some ⟨true⟩, 1⟩, true, true) := rfl
      rw [h1] at hpr
      simp only [List.mem_cons] at hpr
      rcases hpr with hpr | hpr
      · subst hpr; exact ⟨rfl, rfl⟩
      · exact runRequests_all_established tl ⟨some ⟨true⟩, 1⟩ rfl pr hpr

/-- C8 counterexample: when the first open attempt fails, the handle field is
still assigned, so the second request's middleware proceeds and its handler
runs — second trace entry (ran = true, established = false) — and a handler
that runs always sends its statement to the driver (List shown). So a query
executes without an established connection. -/
theorem c8_failed_open_leaves_handle_set :
    runRequests [false, true] MgrState.init
        = (⟨some ⟨false⟩, 1⟩, [(false, false), (true, false)])
      ∧ (readTableHandler okBackend configTimeoutDefault () "users").executed
        = [("SELECT * FROM users LIMIT 10", [])] :=
  ⟨rfl, rfl⟩

/-- The error-handling middleware always answers with a JSON object carrying
a status marker and a human-readable message, and attaches technical detail
only in development mode. -/
theorem errorHandler_envelope (env msg stack : String) :
    (errorHandler env msg stack).body.isObj = true
      ∧ (errorHandler env msg stack).body.hasKey "status" = true
      ∧ (errorHandler env msg stack).body.hasKey "message" = true
      ∧ ((errorHandler env msg stack).body.hasKey "detail" = true → env = "development") := by
  unfold errorHandler
  by_cases hm : msg = "DATABASE_TIMEOUT"
  · simp [hm, Json.isObj, Json.hasKey]
  · by_cases henv : env = "development" <;>
      simp [hm, henv, Json.isObj, Json.hasKey]

/-- C9 (amended): every response is JSON; responses from the central error
handler and the fallback 404 route are JSON objects with a status marker and
a human-readable message, with technical detail attached only in development
mode; the List success response carries a status marker with its payload;
but the other handlers' success responses carry no status marker — Get-by-id
returns the bare row, Paginate returns a bare JSON array, and Update, Create
and Delete return message-only objects. -/
theorem c9_response_envelope {σ : Type} (b : Backend σ) (tmo : Nat) (s : σ)
    (s1 s2 s3 s4 s5 s6 : σ) (table id page limit : String) (p l : Int)
    (r0 : Row) (rest rows : List Row)
    (hguard : ¬(table = "" ∧ id = ""))
    (hp : jsParseInt page = some p) (hl : jsParseInt limit = some l)
    (ht : ∀ q ps, b.time s q ps < tmo)
    (ht2 : ∀ q ps, b.time s2 q ps < tmo)
    (hlist : b.exec s (readTableSql table) [] = (.ok rows, s1))
    (hbyid : b.exec s (selectByIdSql table) [Value.vStr id] = (.ok (r0 :: rest), s2))
    (hpage : b.exec s (paginationSql table) [Value.vInt l, Value.vInt ((p - 1) * l)]
      = (.ok (r0 :: rest), s3))
    (hupd : b.exec s (updateSql table [("first", Value.vStr "Ana")])
      ([("first", Value.vStr "Ana")].map (fun kv => kv.2) ++ [Value.vStr id]) = (.ok [], s4))
    (hins : b.exec s (insertSql table [("first", Value.vStr "Ana")])
      ([("first", Value.vStr "Ana")].map (fun kv => kv.2)) = (.ok [], s5))
    (hdel : b.exec s2 (deleteByIdSql table) [Value.vStr id] = (.ok [], s6)) :
    (∀ env msg stack,
        (errorHandler env msg stack).body.isObj = true
          ∧ (errorHandler env msg stack).body.hasKey "status" = true
          ∧ (errorHandler env msg stack).body.hasKey "message" = true
          ∧ ((errorHandler env msg stack).body.hasKey "detail" = true → env = "development"))
      ∧ notFoundRoute.body.hasKey "status" = true
      ∧ (readTableHandler b tmo s table).out
          = .resp ⟨200, Json.obj [("status", Json.str "success"), ("data", rowsToJson rows)]⟩
      ∧ (readByIdHandler b tmo s table id).out = .resp ⟨200, rowToJson r0⟩
      ∧ ((paginationHandler b tmo s table (some page) (some limit)).out
            = .resp ⟨200, rowsToJson (r0 :: rest)⟩
          ∧ (rowsToJson (r0 :: rest)).isObj = false)
      ∧ ((updateHandler b tmo s table id [("first", Value.vStr "Ana")]).out
            = .resp ⟨200, Json.obj [("message", Json.str "Cadastro atualizado com sucesso!")]⟩
          ∧ (Json.obj [("message", Json.str "Cadastro atualizado com sucesso!")]).hasKey "status"
            = false)
      ∧ ((createHandler b tmo s table [("first", Value.vStr "Ana")]).out
            = .resp ⟨200, Json.obj [("message", Json.str "Cadastro criado com sucesso!")]⟩
          ∧ (Json.obj [("message", Json.str "Cadastro criado com sucesso!")]).hasKey "status"
            = false)
      ∧ ((deleteHandler b tmo s table id).out
            = .resp ⟨200, Json.obj [("message",
                Json.str ("ID '" ++ id ++ "' excluído com sucesso!"))]⟩
          ∧ (Json.obj [("message", Json.str ("ID '" ++ id ++ "' excluído com sucesso!"))]).hasKey
              "status" = false) := by
  have hpe : page ≠ "" := by
    intro h; rw [h, jsParseInt_empty] at hp; cases hp
  have hle : limit ≠ "" := by
    intro h; rw [h, jsParseInt_empty] at hl; cases hl
  have hfals : (jsFalsyParam (some page) || jsFalsyParam (some limit)) = false := by
    simp [jsFalsyParam, hpe, hle]
  refine ⟨errorHandler_envelope, rfl, ?_, ?_, ⟨?_, rfl⟩, ⟨?_, rfl⟩, ⟨?_, rfl⟩, ⟨?_, rfl⟩⟩
  · unfold readTableHandler
    simp only [dmQuery_ok (ht _ _) hlist]
  · unfold readByIdHandler
    rw [if_neg hguard]
    simp only [dmQuery_ok (ht _ _) hbyid]
  · unfold paginationHandler
    simp only [hfals, Bool.false_eq_true, if_false, Option.getD_some, hp, hl, jsSub, jsMul,
      numParam]
    simp only [dmQuery_ok (ht _ _) hpage, List.length_cons]
    simp
  · unfold updateHandler
    simp only [dmQuery_ok (ht _ _) hupd]
  · unfold createHandler
    simp only [dmQuery_ok (ht _ _) hins]
  · unfold deleteHandler
    simp only [dmQuery_ok (ht _ _) hbyid, List.length_cons]
    simp only [dmQuery_ok (ht2 _ _) hdel]
    simp

/-- Witness for C9's amended statement on a one-row users table over the
modelled driver: the List success response carries the status marker. -/
theorem c9_response_envelope_witness :
    (readTableHandler sqliteBackend configTimeoutDefault
        [("users", [[("id", Value.vInt 1)]])] "users").out
      = .resp ⟨200, Json.obj [("status", Json.str "success"),
          ("data", rowsToJson [[("id", Value.vInt 1)]])]⟩ :=
  (c9_response_envelope sqliteBackend configTimeoutDefault
    [("users", [[("id", Value.vInt 1)]])] [("users", [[("id", Value.vInt 1)]])]
    [("users", [[("id", Value.vInt 1)]])] [("users", [[("id", Value.vInt 1)]])]
    [("users", [[("id", Value.vInt 1)]])] [("users", [[("id", Value.vInt 1)]])]
    [("users", [])] "users" "1" "1" "10" 1 10 [("id", Value.vInt 1)] []
    [[("id", Value.vInt 1)]]
    (by simp) rfl rfl
    (fun _ _ => by norm_num [sqliteBackend, configTimeoutDefault])
    (fun _ _ => by norm_num [sqliteBackend, configTimeoutDefault])
    (by decide) (by decide) (by decide) (by decide) (by decide) (by decide)).2.2.1

/-- C9 counterexample: a Paginate success on a non-empty table answers with a
bare JSON array — not a JSON object and with no status marker — so not every
data-API response is a status-marked JSON object. -/
theorem c9_pagination_success_is_bare_array :
    (paginationHandler twoRowBackend configTimeoutDefault () "users"
        (some "1") (some "10")).out
      = .resp ⟨200, rowsToJson [[("id", Value.vInt 1), ("first", Value.vStr "A")],
          [("id", Value.vInt 1), ("first", Value.vStr "B")]]⟩
    ∧ (rowsToJson [[("id", Value.vInt 1), ("first", Value.vStr "A")],
          [("id", Value.vInt 1), ("first", Value.vStr "B")]]).isObj = false
    ∧ (rowsToJson [[("id", Value.vInt 1), ("first", Value.vStr "A")],
          [("id", Value.vInt 1), ("first", Value.vStr "B")]]).hasKey "status" = false :=
  ⟨rfl, rfl, rfl⟩
